import Mathlib

/-!
Verification of the weather-MLOps pipeline core.

Shallow embedding of:
- `src/airflow/dags/scripts/transform.py` (`transform_data`, lines 28-55):
  the in-memory dataframe pipeline from timestamp conversion through
  `dropna`.  File discovery, CSV I/O, and the MLflow/profiling logging are
  external side effects and are outside the embedded scope.
- `src/airflow/dags/scripts/validate.py` (`validate_data`, lines 21-52):
  the null / schema / freshness checks on a loaded dataframe.
- `src/api/app/main.py` (`predict`, `health_check`, lines 77-114):
  the inference service with its drift-detection loop and gauges.

Numeric cells are modelled as exact rationals (`ℚ`); a missing value
(pandas `NaN`/`NaT`) is `Option.none`.  All concrete values appearing in
the claims are exactly representable in binary floating point and the
operations on them are exact, so the rational model agrees with the
float computation at every point a theorem below evaluates.
-/

/-- A parsed event timestamp, as produced by `pd.to_datetime` on the
`dt_txt` column.  Calendar fields are explicit, mirroring the accessors
`.dt.hour`, `.dt.dayofweek`, `.dt.month` used by `transform.py`. -/
structure Timestamp where
  year : Nat
  month : Nat
  day : Nat
  hour : Nat
  minute : Nat
  second : Nat
deriving DecidableEq, Repr

/-- Linearisation of a timestamp for chronological comparison.  For
in-range fields (month ≤ 12, day ≤ 31, hour ≤ 23, minute, second ≤ 59)
it orders timestamps exactly as the calendar does. -/
def Timestamp.key (t : Timestamp) : Nat :=
  ((((t.year * 13 + t.month) * 32 + t.day) * 24 + t.hour) * 60 + t.minute) * 60 + t.second

/-- Chronological comparison of event timestamps, the sort key of
`df.sort_values('dt_txt')`. -/
def Timestamp.le (a b : Timestamp) : Bool :=
  a.key ≤ b.key

/-- Month offsets of Sakamoto's weekday algorithm. -/
def sakamotoTable : List Nat := [0, 3, 2, 5, 0, 3, 5, 1, 4, 6, 2, 4]

/-- Day of week with Monday = 0, the pandas `.dt.dayofweek` convention
(Sakamoto's method computes Sunday = 0; the `+ 6` shift converts). -/
def Timestamp.dayofweek (t : Timestamp) : Nat :=
  let y := if t.month < 3 then t.year - 1 else t.year
  (y + y / 4 + y / 400 + sakamotoTable.getD (t.month - 1) 0 + t.day + 6 - y / 100) % 7

/-- One raw CSV record as read by `pd.read_csv` in `transform.py` after
the two `pd.to_datetime` conversions (lines 28-29).  The columns are the
ones written by `extract.py` (lines 32-45).  `none` models a missing
value.  `dt_txt` is total: the transform raises (and the task aborts)
on an unparseable event timestamp, so embedded batches carry parsed
ones. -/
structure RawRecord where
  dt : Option ℚ
  dt_txt : Timestamp
  temp : Option ℚ
  feels_like : Option ℚ
  pressure : Option ℚ
  humidity : Option ℚ
  weather_main : Option String
  weather_description : Option String
  wind_speed : Option ℚ
  wind_deg : Option ℚ
  clouds_all : Option ℚ
  collection_time : Option Timestamp
deriving DecidableEq, Repr

instance : Inhabited RawRecord :=
  ⟨⟨none, ⟨0, 0, 0, 0, 0, 0⟩, none, none, none, none, none, none, none, none, none, none⟩⟩

/-- A raw record with no missing value in any raw column. -/
def RawRecord.complete (r : RawRecord) : Bool :=
  r.dt.isSome && r.temp.isSome && r.feels_like.isSome && r.pressure.isSome &&
    r.humidity.isSome && r.weather_main.isSome && r.weather_description.isSome &&
    r.wind_speed.isSome && r.wind_deg.isSome && r.clouds_all.isSome &&
    r.collection_time.isSome

/-- Insertion step of the embedded sort on `dt_txt`. -/
def insertByTime (r : RawRecord) : List RawRecord → List RawRecord
  | [] => [r]
  | x :: xs => if Timestamp.le r.dt_txt x.dt_txt then r :: x :: xs else x :: insertByTime r xs

/-- `df.sort_values('dt_txt')` (transform.py line 32): a total sort of
the batch by event timestamp.  pandas uses numpy's introsort here, whose
ordering of records with equal `dt_txt` is unspecified; this embedding
fixes one correct-by-key order.  Every theorem below that goes through
the sort depends only on key order, length and membership, never on the
relative order of equal keys. -/
def sortByDtTxt : List RawRecord → List RawRecord
  | [] => []
  | x :: xs => insertByTime x (sortByDtTxt xs)

/-- One row of the feature dataframe after the feature-engineering block
(transform.py lines 34-52): all raw columns plus the derived ones. -/
structure FeatureRow where
  raw : RawRecord
  hour : Nat
  day_of_week : Nat
  month : Nat
  temp_lag_1 : Option ℚ
  humidity_lag_1 : Option ℚ
  temp_rolling_mean_3 : Option ℚ
  temp_rolling_std_3 : Option ℚ
  target_temp : Option ℚ
deriving DecidableEq, Repr

/-- Integer square root by bounded search; kernel-reducible.  Agrees
with the floor square root, hence exact on perfect squares. -/
def isqrt (n : Nat) : Nat :=
  ((List.range (n + 1)).filter (fun k => k * k ≤ n)).length - 1

/-- Square root on rationals, exact on perfect squares.  The float
computation in the source takes an IEEE square root, which is likewise
exact at every perfect square; no theorem below consults this function
anywhere else. -/
def ratSqrt (q : ℚ) : ℚ :=
  (isqrt q.num.toNat : ℚ) / (isqrt q.den : ℚ)

/-- Mean of a full window of 3, as in `rolling(window=3).mean()`. -/
def mean3 (a b c : ℚ) : ℚ :=
  (a + b + c) / 3

/-- Sample variance (denominator n − 1 = 2) of a full window of 3. -/
def sampleVar3 (a b c : ℚ) : ℚ :=
  ((a - mean3 a b c) ^ 2 + (b - mean3 a b c) ^ 2 + (c - mean3 a b c) ^ 2) / 2

/-- Sample standard deviation of a full window of 3, as in
`rolling(window=3).std()` (pandas `std` uses `ddof=1`). -/
def sampleStd3 (a b c : ℚ) : ℚ :=
  ratSqrt (sampleVar3 a b c)

/-- The feature row at position `i` of the sorted batch `l`
(transform.py lines 37-52):
`hour`/`day_of_week`/`month` from the event timestamp;
`temp_lag_1`, `humidity_lag_1` via `shift(1)` (missing at the first
row); rolling mean/std over the window of the 3 rows ending at `i`
(missing unless the row has 2 predecessors and all three window values
are present, matching `min_periods = window = 3`); `target_temp` via
`shift(-1)` (missing at the last row). -/
def mkRow (l : List RawRecord) (i : Nat) : FeatureRow :=
  let r := l.getD i default
  { raw := r
    hour := r.dt_txt.hour
    day_of_week := r.dt_txt.dayofweek
    month := r.dt_txt.month
    temp_lag_1 := if i = 0 then none else (l.getD (i - 1) default).temp
    humidity_lag_1 := if i = 0 then none else (l.getD (i - 1) default).humidity
    temp_rolling_mean_3 :=
      if 2 ≤ i then
        match (l.getD (i - 2) default).temp, (l.getD (i - 1) default).temp, r.temp with
        | some a, some b, some c => some (mean3 a b c)
        | _, _, _ => none
      else none
    temp_rolling_std_3 :=
      if 2 ≤ i then
        match (l.getD (i - 2) default).temp, (l.getD (i - 1) default).temp, r.temp with
        | some a, some b, some c => some (sampleStd3 a b c)
        | _, _, _ => none
      else none
    target_temp := if i + 1 < l.length then (l.getD (i + 1) default).temp else none }

/-- A feature row that `df.dropna()` keeps: no missing value in any raw
or derived column. -/
def FeatureRow.keptByDropna (fr : FeatureRow) : Bool :=
  fr.raw.complete && fr.temp_lag_1.isSome && fr.humidity_lag_1.isSome &&
    fr.temp_rolling_mean_3.isSome && fr.temp_rolling_std_3.isSome && fr.target_temp.isSome

/-- `transform_data` (transform.py lines 28-55), from the parsed raw
batch to `df_clean`: sort by `dt_txt`, derive the feature columns row
by row, then `dropna`. -/
def transform_data (rows : List RawRecord) : List FeatureRow :=
  let sorted := sortByDtTxt rows
  ((List.range sorted.length).map (mkRow sorted)).filter FeatureRow.keptByDropna

theorem length_insertByTime (r : RawRecord) (l : List RawRecord) :
    (insertByTime r l).length = l.length + 1 := by
  induction l with
  | nil => rfl
  | cons x xs ih => by_cases h : Timestamp.le r.dt_txt x.dt_txt <;> simp [insertByTime, h, ih]

theorem length_sortByDtTxt (l : List RawRecord) :
    (sortByDtTxt l).length = l.length := by
  induction l with
  | nil => rfl
  | cons x xs ih => simp [sortByDtTxt, length_insertByTime, ih]

theorem mem_insertByTime {a r : RawRecord} {l : List RawRecord} :
    a ∈ insertByTime r l ↔ a = r ∨ a ∈ l := by
  induction l with
  | nil => simp [insertByTime]
  | cons x xs ih =>
    by_cases h : Timestamp.le r.dt_txt x.dt_txt <;> simp [insertByTime, h, ih] <;> tauto

theorem mem_sortByDtTxt {a : RawRecord} {l : List RawRecord} :
    a ∈ sortByDtTxt l ↔ a ∈ l := by
  induction l with
  | nil => exact Iff.rfl
  | cons x xs ih => simp [sortByDtTxt, mem_insertByTime, ih]

theorem getD_mem_of_lt {l : List RawRecord} {i : Nat} (h : i < l.length) :
    l.getD i default ∈ l := by
  rw [List.getD_eq_getElem l default h]
  exact List.getElem_mem h

theorem temp_isSome_of_complete {r : RawRecord} (h : r.complete = true) :
    r.temp.isSome = true := by
  simp [RawRecord.complete, Bool.and_eq_true] at h
  tauto

theorem humidity_isSome_of_complete {r : RawRecord} (h : r.complete = true) :
    r.humidity.isSome = true := by
  simp [RawRecord.complete, Bool.and_eq_true] at h
  tauto

theorem keptByDropna_mkRow {l : List RawRecord} (hc : ∀ r ∈ l, r.complete = true)
    {i : Nat} (hi : i < l.length) :
    (mkRow l i).keptByDropna = (decide (2 ≤ i) && decide (i + 1 < l.length)) := by
  have hcall : ∀ j, j < l.length → (l.getD j default).complete = true :=
    fun j hj => hc _ (getD_mem_of_lt hj)
  have hri : (l.getD i default).complete = true := hcall i hi
  match i with
  | 0 => simp [mkRow, FeatureRow.keptByDropna]
  | 1 => simp [mkRow, FeatureRow.keptByDropna]
  | (j+2) =>
    obtain ⟨a, ha⟩ := Option.isSome_iff_exists.mp
      (temp_isSome_of_complete (hcall j (by omega)))
    obtain ⟨b, hb⟩ := Option.isSome_iff_exists.mp
      (temp_isSome_of_complete (hcall (j+1) (by omega)))
    obtain ⟨c, hcv⟩ := Option.isSome_iff_exists.mp (temp_isSome_of_complete hri)
    have hlagH : ((l.getD (j+1) default).humidity).isSome = true :=
      humidity_isSome_of_complete (hcall (j+1) (by omega))
    rw [List.getD_eq_getElem?_getD] at ha hb hcv hlagH hri
    by_cases ht : j + 2 + 1 < l.length
    · have htgt : ((l.getD (j + 2 + 1) default).temp).isSome = true :=
        temp_isSome_of_complete (hcall (j + 2 + 1) ht)
      have htgt2 : (l[j + 2 + 1]).temp.isSome = true := by
        rw [← List.getD_eq_getElem l default ht]
        exact htgt
      simp [mkRow, FeatureRow.keptByDropna, hri, ha, hb, hcv, hlagH, ht, htgt2]
    · simp [mkRow, FeatureRow.keptByDropna, hri, ha, hb, hcv, hlagH, ht]

theorem kept_implies_bounds {l : List RawRecord} {i : Nat}
    (h : (mkRow l i).keptByDropna = true) : 2 ≤ i ∧ i + 1 < l.length := by
  refine ⟨?_, ?_⟩
  · by_contra hc
    have hnone : (mkRow l i).temp_rolling_mean_3 = none := by simp [mkRow, hc]
    have h2 := h
    simp [FeatureRow.keptByDropna, hnone, Bool.and_eq_true] at h2
  · by_contra hc
    have hnone : (mkRow l i).target_temp = none := by simp [mkRow, hc]
    have h2 := h
    simp [FeatureRow.keptByDropna, hnone, Bool.and_eq_true] at h2

theorem filter_map_comm {α β : Type} (f : α → β) (q : β → Bool) (l : List α) :
    (l.map f).filter q = (l.filter (fun x => q (f x))).map f := by
  induction l with
  | nil => rfl
  | cons x xs ih => by_cases h : q (f x) <;> simp [h, ih]

theorem count_range_two_le (n : Nat) :
    ((List.range n).filter (fun i => decide (2 ≤ i))).length = n - 2 := by
  induction n with
  | zero => rfl
  | succ m ih =>
    rw [List.range_succ, List.filter_append, List.length_append, ih]
    by_cases h : 2 ≤ m <;> simp [h] <;> omega

theorem count_range_mid (n : Nat) :
    ((List.range n).filter (fun i => decide (2 ≤ i) && decide (i + 1 < n))).length = n - 3 := by
  match n with
  | 0 => rfl
  | (m+1) =>
    rw [List.range_succ, List.filter_append, List.length_append]
    have h1 : (List.range m).filter (fun i => decide (2 ≤ i) && decide (i + 1 < m + 1))
        = (List.range m).filter (fun i => decide (2 ≤ i)) := by
      apply List.filter_congr
      intro x hx
      have hxm : x < m := List.mem_range.mp hx
      simp [Nat.succ_lt_succ hxm]
    rw [h1, count_range_two_le]
    have h2 : ((List.filter (fun i => decide (2 ≤ i) && decide (i + 1 < m + 1)) [m])).length
        = 0 := by
      simp
    rw [h2]
    omega

/-- Example timestamp: 2024-05-10 at hour `h`. -/
def exTs (h : Nat) : Timestamp := ⟨2024, 5, 10, h, 0, 0⟩

/-- A fully populated raw record at hour `h` with temperature `t`. -/
def exRaw (h : Nat) (t : ℚ) : RawRecord :=
  { dt := some (h : ℚ)
    dt_txt := exTs h
    temp := some t
    feels_like := some t
    pressure := some 1013
    humidity := some 60
    weather_main := some "Clouds"
    weather_description := some "scattered clouds"
    wind_speed := some 5
    wind_deg := some 180
    clouds_all := some 40
    collection_time := some (exTs h) }

/-- A valid, already chronological batch of 3 complete records with
temperatures 18, 20, 22. -/
def exBatch3 : List RawRecord := [exRaw 0 18, exRaw 1 20, exRaw 2 22]

/-- A valid batch of 4 complete records. -/
def exBatch4 : List RawRecord := [exRaw 0 18, exRaw 1 20, exRaw 2 22, exRaw 3 21]

/-- A valid batch of 2 complete records. -/
def exBatch2 : List RawRecord := [exRaw 0 18, exRaw 1 20]

/-- C1 counterexample: a complete batch of n = 3 records on which the
transform emits 0 feature vectors, not n − 2 = 1: rows 0 and 1 lose the
rolling window, row 0 additionally the lag, and row 2 the target, so
`dropna` removes all three rows. -/
theorem transform_three_records_not_n_sub_two :
    exBatch3.length = 3 ∧ exBatch3.all RawRecord.complete = true ∧
      (transform_data exBatch3).length = 0 ∧
      (transform_data exBatch3).length ≠ exBatch3.length - 2 := by
  refine ⟨rfl, by decide, by decide, by decide⟩

/-- C1 (amended): for every batch of n ≥ 3 raw records with no missing
value in any raw column, the Feature Transform produces exactly n − 3
feature vectors (rows 0 and 1 lack the full rolling window, row 0 also
the lag, the last row the target — three distinct dropped rows), each
free of missing values. -/
theorem transform_count_n_sub_three (rows : List RawRecord)
    (hn : 3 ≤ rows.length) (hc : rows.all RawRecord.complete = true) :
    (transform_data rows).length = rows.length - 3 ∧
      ∀ fr ∈ transform_data rows, fr.keptByDropna = true := by
  have hc2 : ∀ r ∈ sortByDtTxt rows, r.complete = true := by
    intro r hr
    exact List.all_eq_true.mp hc r (mem_sortByDtTxt.mp hr)
  constructor
  · show (((List.range (sortByDtTxt rows).length).map (mkRow (sortByDtTxt rows))).filter
      FeatureRow.keptByDropna).length = rows.length - 3
    rw [filter_map_comm, List.length_map]
    have hcong : (List.range (sortByDtTxt rows).length).filter
        (fun i => (mkRow (sortByDtTxt rows) i).keptByDropna)
        = (List.range (sortByDtTxt rows).length).filter
            (fun i => decide (2 ≤ i) && decide (i + 1 < (sortByDtTxt rows).length)) := by
      apply List.filter_congr
      intro i hi
      exact keptByDropna_mkRow hc2 (List.mem_range.mp hi)
    rw [hcong, count_range_mid, length_sortByDtTxt]
  · intro fr hfr
    exact List.of_mem_filter hfr

/-- C1 witness: on a concrete complete batch of 4 records the transform
yields exactly 4 − 3 = 1 feature vector. -/
theorem transform_count_n_sub_three_witness :
    3 ≤ exBatch4.length ∧ exBatch4.all RawRecord.complete = true ∧
      (transform_data exBatch4).length = exBatch4.length - 3 :=
  ⟨by decide, by decide, (transform_count_n_sub_three exBatch4 (by decide) (by decide)).1⟩

/-- C5: a batch with fewer than 3 records (post-sort) transforms to an
empty output sequence, not an error. -/
theorem transform_small_batch_empty (rows : List RawRecord)
    (h : rows.length < 3) : transform_data rows = [] := by
  show ((List.range (sortByDtTxt rows).length).map (mkRow (sortByDtTxt rows))).filter
      FeatureRow.keptByDropna = []
  rw [List.filter_eq_nil_iff]
  intro a ha
  obtain ⟨i, hi, rfl⟩ := List.mem_map.mp ha
  intro hk
  have hb := kept_implies_bounds hk
  have hlen := length_sortByDtTxt rows
  omega

/-- C5 witness: a concrete 2-record batch transforms to the empty list. -/
theorem transform_small_batch_empty_witness :
    exBatch2.length < 3 ∧ transform_data exBatch2 = [] :=
  ⟨by decide, transform_small_batch_empty exBatch2 (by decide)⟩

theorem ratSqrt_four : ratSqrt 4 = 2 := by
  have hn : ((4 : ℚ)).num = 4 := by norm_num
  have hd : ((4 : ℚ)).den = 1 := by norm_num
  rw [ratSqrt, hn, hd]
  have h1 : isqrt ((4 : ℤ)).toNat = 2 := by decide
  have h2 : isqrt 1 = 1 := by decide
  rw [h1, h2]
  norm_num

/-- C7: on the sorted temperature window [18, 20, 22], the feature row
of the third record carries rolling mean 20 and rolling sample standard
deviation (denominator n − 1) 2. -/
theorem rolling_stats_concrete :
    (mkRow (sortByDtTxt exBatch3) 2).temp_rolling_mean_3 = some 20 ∧
      (mkRow (sortByDtTxt exBatch3) 2).temp_rolling_std_3 = some 2 := by
  have hs : sortByDtTxt exBatch3 = exBatch3 := rfl
  rw [hs]
  have hm : (mkRow exBatch3 2).temp_rolling_mean_3 = some (mean3 18 20 22) := rfl
  have hv : (mkRow exBatch3 2).temp_rolling_std_3 = some (sampleStd3 18 20 22) := rfl
  rw [hm, hv]
  constructor
  · have : mean3 18 20 22 = 20 := by norm_num [mean3]
    rw [this]
  · have hvar : sampleVar3 18 20 22 = 4 := by norm_num [sampleVar3, mean3]
    rw [sampleStd3, hvar, ratSqrt_four]

/-- A loaded dataframe for `validate.py`: named columns of cells, a cell
being `none` when `pd.isnull` holds for it.  Validation only consults
null-ness, column presence and the maximum `collection_time`, so cell
payloads are uniformly rationals (`collection_time` cells as epoch
seconds, matching the `age.total_seconds()` comparison). -/
def Df : Type := List (String × List (Option ℚ))

/-- `c in df.columns`. -/
def hasCol (df : Df) (c : String) : Bool :=
  df.any (fun col => col.fst = c)

/-- The cells of column `c` (empty when the column is absent; the code
paths below only read present columns). -/
def colCells (df : Df) (c : String) : List (Option ℚ) :=
  ((df.find? (fun col => col.fst = c)).map Prod.snd).getD []

/-- `df.isnull().any().any()` (validate.py line 24). -/
def anyNull (df : Df) : Bool :=
  df.any (fun col => col.snd.any Option.isNone)

/-- The critical columns of validate.py line 29. -/
def critical_cols : List String := ["temp", "humidity", "pressure", "wind_speed"]

/-- The expected columns of validate.py line 35. -/
def expected_cols : List String :=
  ["dt", "temp", "humidity", "pressure", "wind_speed", "collection_time"]

/-- Non-fatal validation messages printed by validate.py. -/
inductive VWarning
  | nullWarning
  | staleWarning
deriving DecidableEq, Repr

/-- Result of a validate.py run: `genericFailure` is the catch-all
`except` branch (exit 1), `criticalNullFailure` exit 1 at line 32,
`schemaFailure` exit 1 at line 39, and `passed` reaches line 52 with
the warnings printed along the way. -/
inductive VOutcome
  | genericFailure
  | criticalNullFailure
  | schemaFailure (missing : List String)
  | passed (warnings : List VWarning)
deriving DecidableEq, Repr

/-- Whether the run exited with a failure. -/
def VOutcome.isFail : VOutcome → Bool
  | .passed _ => false
  | _ => true

/-- `df['collection_time'].max()` over the parsed column: pandas `max`
skips nulls and is `NaT` (here `none`) when no value remains. -/
def maxSome (cells : List (Option ℚ)) : Option ℚ :=
  cells.foldl
    (fun acc c =>
      match acc, c with
      | none, c2 => c2
      | some m, none => some m
      | some m, some v => some (max m v))
    none

/-- The freshness check (validate.py lines 43-50): a warning when the
age of the newest `collection_time` exceeds 24 hours (86400 seconds);
never fatal, and skipped when no maximum exists (`NaT` compares false). -/
def freshWarnings (df : Df) (now : ℚ) : List VWarning :=
  if hasCol df "collection_time" then
    match maxSome (colCells df "collection_time") with
    | some t => if 86400 < now - t then [VWarning.staleWarning] else []
    | none => []
  else []

/-- `validate_data` (validate.py lines 21-52) on a loaded dataframe.
The code checks nulls first (lines 24-32): when any null exists it
indexes `df[critical_cols]`, which raises `KeyError` — the generic
`except` branch — if a critical column is absent, and fails hard when a
critical column holds a null.  Only then comes the schema check (lines
35-39) and last the soft freshness check. -/
def validate_data (df : Df) (now : ℚ) : VOutcome :=
  let nullWarn := anyNull df
  if nullWarn && !(critical_cols.all (hasCol df)) then
    VOutcome.genericFailure
  else if nullWarn && critical_cols.any (fun c => (colCells df c).any Option.isNone) then
    VOutcome.criticalNullFailure
  else
    let missing := expected_cols.filter (fun c => !(hasCol df c))
    if missing.isEmpty then
      VOutcome.passed ((if nullWarn then [VWarning.nullWarning] else []) ++ freshWarnings df now)
    else
      VOutcome.schemaFailure missing

theorem anyNull_of_critical_null {df : Df} {c : String}
    (hhas : hasCol df c = true)
    (hnull : (colCells df c).any Option.isNone = true) : anyNull df = true := by
  have hfind : (df.find? (fun col => col.fst = c)).isSome = true := by
    rw [List.find?_isSome]
    obtain ⟨col, hmem, hp⟩ := List.any_eq_true.mp hhas
    exact ⟨col, hmem, hp⟩
  obtain ⟨col, hcol⟩ := Option.isSome_iff_exists.mp hfind
  have hcells : colCells df c = col.snd := by simp [colCells, hcol]
  rw [hcells] at hnull
  exact List.any_eq_true.mpr ⟨col, List.mem_of_find?_eq_some hcol, hnull⟩

/-- C6 counterexample: a batch that is missing the required column
`pressure` AND contains a null (in `temp`) fails generically — the
null check runs first and `df[critical_cols]` raises `KeyError` — not
with the schema error the claim requires for any batch missing a
required column. -/
def exDfMissingPressureNull : Df :=
  [("dt", [some 1]), ("temp", [none]), ("humidity", [some 60]),
    ("wind_speed", [some 5]), ("collection_time", [some 0])]

theorem validate_missing_pressure_with_null_generic :
    hasCol exDfMissingPressureNull "pressure" = false ∧
      validate_data exDfMissingPressureNull 0 = VOutcome.genericFailure ∧
      validate_data exDfMissingPressureNull 0 ≠ VOutcome.schemaFailure ["pressure"] := by
  refine ⟨by decide, by decide, by decide⟩

/-- C6 (amended): the validator's taxonomy under its actual check
order: a batch with no nulls and a missing expected column fails with
the schema error naming the missing columns; a batch whose critical
columns are all present but hold a null fails with the critical-null
error; a batch with all expected columns present and nulls only outside
the critical columns passes with a null warning.  (A batch that both
misses a critical column and contains a null fails generically instead
— the counterexample above.) -/
theorem validate_error_taxonomy (df : Df) (now : ℚ) :
    (anyNull df = false →
      (expected_cols.filter (fun c => !(hasCol df c))).isEmpty = false →
      validate_data df now
        = VOutcome.schemaFailure (expected_cols.filter (fun c => !(hasCol df c)))) ∧
    (critical_cols.all (hasCol df) = true →
      critical_cols.any (fun c => (colCells df c).any Option.isNone) = true →
      validate_data df now = VOutcome.criticalNullFailure) ∧
    (expected_cols.all (hasCol df) = true →
      anyNull df = true →
      critical_cols.any (fun c => (colCells df c).any Option.isNone) = false →
      ∃ ws, validate_data df now = VOutcome.passed ws ∧ VWarning.nullWarning ∈ ws) := by
  refine ⟨?_, ?_, ?_⟩
  · intro h0 h1
    simp [validate_data, h0, h1]
  · intro hall hcrit
    obtain ⟨c, hcmem, hcnull⟩ := List.any_eq_true.mp hcrit
    have hnul : anyNull df = true :=
      anyNull_of_critical_null (List.all_eq_true.mp hall c hcmem) hcnull
    simp [validate_data, hnul, hall, hcrit]
  · intro hexp hnul hnocrit
    have h6 := List.all_eq_true.mp hexp
    have hall : critical_cols.all (hasCol df) = true := by
      apply List.all_eq_true.mpr
      intro c hc
      simp only [critical_cols, List.mem_cons, List.not_mem_nil, or_false] at hc
      rcases hc with rfl | rfl | rfl | rfl <;> exact h6 _ (by simp [expected_cols])
    have hmiss : (expected_cols.filter (fun c => !(hasCol df c))).isEmpty = true := by
      have hnilf : expected_cols.filter (fun c => !(hasCol df c)) = [] := by
        rw [List.filter_eq_nil_iff]
        intro c hc
        simp [h6 c hc]
      simp [hnilf]
    refine ⟨VWarning.nullWarning :: freshWarnings df now, ?_, List.mem_cons_self _ _⟩
    simp [validate_data, hnul, hall, hnocrit, hmiss]

/-- C6 witness batches: no nulls but `pressure` missing; all columns
present with a null in `wind_speed`; all columns present with a null
only in the non-critical `collection_time`. -/
def exDfNoNullsMissingP : Df :=
  [("dt", [some 1]), ("temp", [some 20]), ("humidity", [some 60]),
    ("wind_speed", [some 5]), ("collection_time", [some 0])]

def exDfWindNull : Df :=
  [("dt", [some 1]), ("temp", [some 20]), ("humidity", [some 60]),
    ("pressure", [some 1013]), ("wind_speed", [none]), ("collection_time", [some 0])]

def exDfNonCritNull : Df :=
  [("dt", [some 1]), ("temp", [some 20]), ("humidity", [some 60]),
    ("pressure", [some 1013]), ("wind_speed", [some 5]), ("collection_time", [none])]

theorem validate_error_taxonomy_witness :
    validate_data exDfNoNullsMissingP 0 = VOutcome.schemaFailure ["pressure"] ∧
      validate_data exDfWindNull 0 = VOutcome.criticalNullFailure ∧
      ∃ ws, validate_data exDfNonCritNull 0 = VOutcome.passed ws ∧
        VWarning.nullWarning ∈ ws := by
  refine ⟨?_, ?_, ?_⟩
  · have h := (validate_error_taxonomy exDfNoNullsMissingP 0).1 (by decide) (by decide)
    have hf : expected_cols.filter (fun c => !(hasCol exDfNoNullsMissingP c))
        = ["pressure"] := by decide
    rw [hf] at h
    exact h
  · exact (validate_error_taxonomy exDfWindNull 0).2.1 (by decide) (by decide)
  · exact (validate_error_taxonomy exDfNonCritNull 0).2.2 (by decide) (by decide) (by decide)

/-- C8: staleness is soft: whether validation fails does not depend on
the current time at all, and an otherwise clean batch whose newest
`collection_time` is more than 24 hours old passes with exactly the
staleness warning. -/
theorem freshness_warning_only (df : Df) (now now2 : ℚ) (t : ℚ) :
    (validate_data df now).isFail = (validate_data df now2).isFail ∧
    (expected_cols.all (hasCol df) = true → anyNull df = false →
      maxSome (colCells df "collection_time") = some t → 86400 < now - t →
      validate_data df now = VOutcome.passed [VWarning.staleWarning]) := by
  constructor
  · cases hA : anyNull df with
    | false =>
      by_cases hm : (expected_cols.filter (fun c => !(hasCol df c))).isEmpty = true <;>
        simp [validate_data, hA, hm, VOutcome.isFail]
    | true =>
      by_cases hB : critical_cols.all (hasCol df) = true
      · by_cases hC : critical_cols.any (fun c => (colCells df c).any Option.isNone) = true
        · simp [validate_data, hA, hB, hC, VOutcome.isFail]
        · by_cases hm : (expected_cols.filter (fun c => !(hasCol df c))).isEmpty = true <;>
            simp [validate_data, hA, hB, hC, hm, VOutcome.isFail]
      · simp [validate_data, hA, hB, VOutcome.isFail]
  · intro hexp hnonull hmax hage
    have hmiss : (expected_cols.filter (fun c => !(hasCol df c))).isEmpty = true := by
      have hnilf : expected_cols.filter (fun c => !(hasCol df c)) = [] := by
        rw [List.filter_eq_nil_iff]
        intro c hc
        simp [List.all_eq_true.mp hexp c hc]
      simp [hnilf]
    have hct : hasCol df "collection_time" = true :=
      List.all_eq_true.mp hexp _ (by simp [expected_cols])
    simp [validate_data, hnonull, hmiss, freshWarnings, hct, hmax, hage]

/-- C8 witness batch: clean, all columns present, collected at epoch
second 0 and validated at epoch second 100000 (age > 24 h). -/
def exDfCleanStale : Df :=
  [("dt", [some 1]), ("temp", [some 20]), ("humidity", [some 60]),
    ("pressure", [some 1013]), ("wind_speed", [some 5]), ("collection_time", [some 0])]

theorem freshness_warning_only_witness :
    expected_cols.all (hasCol exDfCleanStale) = true ∧ anyNull exDfCleanStale = false ∧
      maxSome (colCells exDfCleanStale "collection_time") = some 0 ∧
      (86400 : ℚ) < 100000 - 0 ∧
      validate_data exDfCleanStale 100000 = VOutcome.passed [VWarning.staleWarning] :=
  ⟨by decide, by decide, rfl, by norm_num,
    (freshness_warning_only exDfCleanStale 100000 0 0).2 (by decide) (by decide) rfl
      (by norm_num)⟩

/-- Per-feature training statistics as stored in `training_stats`
(main.py lines 52-55). -/
structure FeatStats where
  mean : ℚ
  std : ℚ
deriving DecidableEq, Repr

/-- The request body (main.py lines 61-72): all eleven fields are
required floats/ints. -/
structure PredictionRequest where
  temp : ℚ
  humidity : ℚ
  pressure : ℚ
  wind_speed : ℚ
  clouds_all : ℚ
  hour : ℤ
  day_of_week : ℤ
  month : ℤ
  temp_lag_1 : ℚ
  temp_rolling_mean_3 : ℚ
  temp_rolling_std_3 : ℚ
deriving DecidableEq, Repr

/-- `features.columns` of the one-row dataframe built from the request
(main.py line 92): exactly the request's field names. -/
def requestColumns : List String :=
  ["temp", "humidity", "pressure", "wind_speed", "clouds_all", "hour",
    "day_of_week", "month", "temp_lag_1", "temp_rolling_mean_3", "temp_rolling_std_3"]

/-- `features[col].iloc[0]`: the request value of a column. -/
def PredictionRequest.colVal (r : PredictionRequest) : String → ℚ
  | "temp" => r.temp
  | "humidity" => r.humidity
  | "pressure" => r.pressure
  | "wind_speed" => r.wind_speed
  | "clouds_all" => r.clouds_all
  | "hour" => (r.hour : ℚ)
  | "day_of_week" => (r.day_of_week : ℚ)
  | "month" => (r.month : ℚ)
  | "temp_lag_1" => r.temp_lag_1
  | "temp_rolling_mean_3" => r.temp_rolling_mean_3
  | "temp_rolling_std_3" => r.temp_rolling_std_3
  | _ => 0

/-- An IEEE-float value as far as the drift computation observes it:
an exact finite rational, positive infinity, or NaN.  All finite values
arising in the claims are exact in binary floating point. -/
inductive FVal
  | fin (q : ℚ)
  | inf
  | nan
deriving DecidableEq, Repr

/-- `z_score = abs((val - mean) / std)` (main.py line 99) with IEEE
division semantics: dividing a nonzero difference by a zero standard
deviation gives (after `abs`) positive infinity, and `0.0 / 0.0` gives
NaN. -/
def zScore (mean std val : ℚ) : FVal :=
  if std = 0 then (if val - mean = 0 then FVal.nan else FVal.inf)
  else FVal.fin |(val - mean) / std|

/-- `z_score > 3` (main.py line 100) under IEEE comparison: infinity
exceeds 3; any comparison with NaN is false. -/
def FVal.gtThree : FVal → Bool
  | .fin q => decide (3 < q)
  | .inf => true
  | .nan => false

/-- The z-score the loop computes for profile feature `c`. -/
def featureZ (req : PredictionRequest) (c : String) (s : FeatStats) : FVal :=
  zScore s.mean s.std (req.colVal c)

/-- The loop body's contribution of one profile feature to `ood_count`
(main.py lines 96-101): features absent from the request columns are
skipped entirely. -/
def oodContrib (req : PredictionRequest) (c : String) (s : FeatStats) : Nat :=
  if c ∈ requestColumns then (if (featureZ req c s).gtThree then 1 else 0) else 0

/-- `ood_count` after the loop over `training_stats.items()`. -/
def oodCount (stats : List (String × FeatStats)) (req : PredictionRequest) : Nat :=
  (stats.map (fun cs => oodContrib req cs.fst cs.snd)).sum

/-- The per-feature mean-shift gauge updates emitted by the loop
(main.py line 104): one `(feature, z)` pair for every profile feature
present in the request, in profile order. -/
def meanShiftUpdates (stats : List (String × FeatStats)) (req : PredictionRequest) :
    List (String × FVal) :=
  (stats.filter (fun cs => cs.fst ∈ requestColumns)).map
    (fun cs => (cs.fst, featureZ req cs.fst cs.snd))

/-- The value written to the OOD-ratio gauge (main.py lines 106-107):
`ood_count / len(training_stats)` whenever the profile is nonempty;
with an empty profile the gauge is not written at all. -/
def oodRatioOf (stats : List (String × FeatStats)) (req : PredictionRequest) : Option ℚ :=
  if 0 < stats.length then some ((oodCount stats req : ℚ) / (stats.length : ℚ)) else none

/-- The OOD-ratio gauge after one request, starting from gauge value
`g` (a prometheus Gauge starts at 0 and keeps its last written value). -/
def oodGaugeAfter (g : ℚ) (stats : List (String × FeatStats)) (req : PredictionRequest) : ℚ :=
  (oodRatioOf stats req).getD g

/-- Observable side effects of one `predict` call, in order. -/
inductive PEvent
  | incPredictionCount
  | buildFeatures
  | setMeanShift (c : String) (z : FVal)
  | setOodRatio (r : ℚ)
  | runModel
  | incPredictionErrors
deriving DecidableEq, Repr

/-- The `detail` payload of an HTTP error: the literal 503 detail
string, or `str(e)` of a caught exception `e` that was itself an HTTP
error with the given status and detail (the blanket `except` at main.py
line 112 re-raises every exception this way). -/
inductive ErrDetail
  | modelNotLoaded
  | stringified (status : Nat) (d : ErrDetail)
deriving DecidableEq, Repr

/-- Result of one `predict` call as the client sees it. -/
inductive POutcome
  | ok (predicted_temp : ℚ)
  | httpError (status : Nat) (detail : ErrDetail)
deriving DecidableEq, Repr

/-- `predict` (main.py lines 83-114).  The request counter increments
first; inside the `try`, an unloaded model raises
`HTTPException(503, "Model not loaded")` BEFORE any feature
computation, but `HTTPException` is an `Exception`, so the blanket
`except` catches it, increments the error counter and re-raises
`HTTPException(500, str(e))`: the client observes a 500.  With a loaded
model the features are built, the drift loop runs publishing the
mean-shift gauges and (for a nonempty profile) the OOD ratio, and the
model's prediction is returned. -/
def predict (model : Option (PredictionRequest → ℚ))
    (stats : List (String × FeatStats)) (req : PredictionRequest) :
    POutcome × List PEvent :=
  match model with
  | none =>
      (POutcome.httpError 500 (ErrDetail.stringified 503 ErrDetail.modelNotLoaded),
        [PEvent.incPredictionCount, PEvent.incPredictionErrors])
  | some m =>
      (POutcome.ok (m req),
        [PEvent.incPredictionCount, PEvent.buildFeatures] ++
          (meanShiftUpdates stats req).map (fun cz => PEvent.setMeanShift cz.fst cz.snd) ++
          (match oodRatioOf stats req with
            | some r => [PEvent.setOodRatio r]
            | none => []) ++
          [PEvent.runModel])

/-- The `/health` response (main.py lines 77-81). -/
structure HealthResponse where
  status : String
  model_loaded : Bool
deriving DecidableEq, Repr

/-- `health_check`: purely a function of whether a model is loaded. -/
def health_check (model : Option (PredictionRequest → ℚ)) : HealthResponse :=
  match model with
  | some _ => ⟨"healthy", true⟩
  | none => ⟨"unhealthy", false⟩

/-- The `training_stats` installed by a successful `load_model`
(main.py lines 52-55). -/
def training_stats_loaded : List (String × FeatStats) :=
  [("temp", ⟨20, 5⟩), ("humidity", ⟨60, 15⟩)]

/-- A request with temperature `t` and every other field zero. -/
def exReq (t : ℚ) : PredictionRequest :=
  ⟨t, 0, 0, 0, 0, 0, 0, 0, 0, 0, 0⟩

/-- C2 exhibit: with no model loaded, `predict` fails before any
feature computation (its only side effects are the request-count and
error-count increments) and `health` reports `model_loaded = false`;
but the surfaced error is HTTP 500 carrying the stringified 503,
because the blanket `except` catches and re-wraps the
`HTTPException(503, "Model not loaded")` of main.py line 89 — the
client never sees the 503 ModelUnavailable itself. -/
theorem predict_unloaded_wrapped_500 (stats : List (String × FeatStats))
    (req : PredictionRequest) :
    predict none stats req
        = (POutcome.httpError 500 (ErrDetail.stringified 503 ErrDetail.modelNotLoaded),
            [PEvent.incPredictionCount, PEvent.incPredictionErrors]) ∧
      PEvent.buildFeatures ∉ (predict none stats req).2 ∧
      (predict none stats req).1 ≠ POutcome.httpError 503 ErrDetail.modelNotLoaded ∧
      health_check none = ⟨"unhealthy", false⟩ := by
  refine ⟨rfl, ?_, by simp [predict], rfl⟩
  simp [predict]

/-- A one-feature profile whose standard deviation is the zero
sentinel. -/
def exStatsZeroStd : List (String × FeatStats) := [("temp", ⟨0, 0⟩)]

/-- C3 counterexample: the profile feature `temp` with std = 0 and
request value 1 is NOT excluded: its published z-score is infinity, it
is counted as out-of-distribution, and it stays in the aggregate
denominator, giving ratio 1 — not the exclusion (and ratio 0 for zero
monitored features) the claim requires. -/
theorem drift_zero_std_counterexample :
    meanShiftUpdates exStatsZeroStd (exReq 1) = [("temp", FVal.inf)] ∧
      oodCount exStatsZeroStd (exReq 1) = 1 ∧
      oodRatioOf exStatsZeroStd (exReq 1) = some 1 := by
  have hz : featureZ (exReq 1) "temp" (⟨0, 0⟩ : FeatStats) = FVal.inf := by
    norm_num [featureZ, zScore, exReq, PredictionRequest.colVal]
  refine ⟨?_, ?_, ?_⟩
  · simp [meanShiftUpdates, exStatsZeroStd, hz, requestColumns]
  · simp [oodCount, oodContrib, exStatsZeroStd, hz, requestColumns, FVal.gtThree]
  · have hc : oodCount [("temp", (⟨0, 0⟩ : FeatStats))] (exReq 1) = 1 := by
      simp [oodCount, oodContrib, hz, requestColumns, FVal.gtThree]
    simp [oodRatioOf, exStatsZeroStd, hc]

/-- C3 (amended): the drift loop has no sentinel handling at all.  A
profile feature with std = 0 that is present in the request and whose
value differs from the mean gets a published z-score of infinity, is
counted as out-of-distribution, and stays in the aggregate denominator
(ratio 1/1 on a one-feature profile); a value equal to the mean gives
z = NaN (0.0/0.0).  With an empty profile the ratio gauge is simply not
written — it keeps its previous value `g` (0 only because a fresh gauge
starts at 0) — rather than being set to 0. -/
theorem drift_no_sentinel_skip (req : PredictionRequest) (mean g : ℚ)
    (h : req.temp ≠ mean) :
    meanShiftUpdates [("temp", ⟨mean, 0⟩)] req = [("temp", FVal.inf)] ∧
      oodCount [("temp", ⟨mean, 0⟩)] req = 1 ∧
      oodRatioOf [("temp", ⟨mean, 0⟩)] req = some 1 ∧
      zScore mean 0 mean = FVal.nan ∧
      oodRatioOf [] req = none ∧
      oodGaugeAfter g [] req = g := by
  have hz : featureZ req "temp" (⟨mean, 0⟩ : FeatStats) = FVal.inf := by
    simp [featureZ, zScore, PredictionRequest.colVal, sub_eq_zero, h]
  have hcnt : oodCount [("temp", (⟨mean, 0⟩ : FeatStats))] req = 1 := by
    simp [oodCount, oodContrib, hz, requestColumns, FVal.gtThree]
  refine ⟨?_, hcnt, ?_, ?_, rfl, rfl⟩
  · simp [meanShiftUpdates, hz, requestColumns]
  · simp [oodRatioOf, hcnt]
  · simp [zScore]

/-- C3 witness: the amended facts instantiated at request value 1,
mean 0, previous gauge value 7. -/
theorem drift_no_sentinel_skip_witness :
    (exReq 1).temp ≠ 0 ∧
      meanShiftUpdates [("temp", ⟨0, 0⟩)] (exReq 1) = [("temp", FVal.inf)] ∧
      oodGaugeAfter 7 [] (exReq 1) = 7 :=
  ⟨by norm_num [exReq],
    (drift_no_sentinel_skip (exReq 1) 0 7 (by norm_num [exReq])).1,
    (drift_no_sentinel_skip (exReq 1) 0 7 (by norm_num [exReq])).2.2.2.2.2⟩

/-- C4: out-of-distribution classification is strict: a finite z is
flagged exactly when z > 3; infinity is flagged, NaN is not; at profile
(mean 20, std 5) and observed value 35 the z-score is exactly 3 and the
feature is NOT counted, while value 36 (z = 3.2) is counted. -/
theorem ood_threshold_strict :
    (∀ q : ℚ, (FVal.fin q).gtThree = decide (3 < q)) ∧
      FVal.inf.gtThree = true ∧ FVal.nan.gtThree = false ∧
      featureZ (exReq 35) "temp" ⟨20, 5⟩ = FVal.fin 3 ∧
      (featureZ (exReq 35) "temp" ⟨20, 5⟩).gtThree = false ∧
      oodCount [("temp", ⟨20, 5⟩)] (exReq 35) = 0 ∧
      oodCount [("temp", ⟨20, 5⟩)] (exReq 36) = 1 := by
  have h35 : featureZ (exReq 35) "temp" (⟨20, 5⟩ : FeatStats) = FVal.fin 3 := by
    norm_num [featureZ, zScore, exReq, PredictionRequest.colVal]
  have h36 : featureZ (exReq 36) "temp" (⟨20, 5⟩ : FeatStats) = FVal.fin (16/5) := by
    norm_num [featureZ, zScore, exReq, PredictionRequest.colVal]
  refine ⟨fun q => rfl, rfl, rfl, h35, ?_, ?_, ?_⟩
  · rw [h35]
    simp [FVal.gtThree]
  · simp [oodCount, oodContrib, h35, requestColumns, FVal.gtThree]
  · simp [oodCount, oodContrib, h36, requestColumns, FVal.gtThree]
    norm_num

theorem oodCount_filter_present (stats : List (String × FeatStats))
    (req : PredictionRequest) :
    oodCount stats req
      = oodCount (stats.filter (fun cs => cs.fst ∈ requestColumns)) req := by
  induction stats with
  | nil => rfl
  | cons x xs ih =>
    by_cases hx : x.fst ∈ requestColumns
    · simp [oodCount, List.filter_cons, hx] at ih ⊢
      omega
    · simp [oodCount, List.filter_cons, hx, oodContrib] at ih ⊢
      exact ih

/-- C10: the aggregate OOD ratio always divides by the full profile
size `len(training_stats)`: a profile feature absent from the request
contributes 0 to the numerator (it is skipped by the `col in
features.columns` guard) yet still counts in the denominator; dropping
every absent feature leaves the numerator unchanged; and the gauge
write of a predict call with a loaded model carries exactly
`ood_count / len(training_stats)`. -/
theorem ood_ratio_full_denominator (m : PredictionRequest → ℚ)
    (stats : List (String × FeatStats)) (req : PredictionRequest)
    (c : String) (s : FeatStats)
    (h1 : (c, s) ∈ stats) (h2 : c ∉ requestColumns) :
    oodContrib req c s = 0 ∧
      oodCount stats req
        = oodCount (stats.filter (fun cs => cs.fst ∈ requestColumns)) req ∧
      oodRatioOf stats req = some ((oodCount stats req : ℚ) / (stats.length : ℚ)) ∧
      PEvent.setOodRatio ((oodCount stats req : ℚ) / (stats.length : ℚ))
        ∈ (predict (some m) stats req).2 := by
  have hlen : 0 < stats.length := List.length_pos.mpr (List.ne_nil_of_mem h1)
  have hratio : oodRatioOf stats req
      = some ((oodCount stats req : ℚ) / (stats.length : ℚ)) := by
    simp [oodRatioOf, hlen]
  refine ⟨by simp [oodContrib, h2], oodCount_filter_present stats req, hratio, ?_⟩
  simp [predict, hratio]

/-- C10 witness profile: a single feature name that is not a request
column. -/
def exStatsAbsent : List (String × FeatStats) := [("station_id", ⟨0, 1⟩)]

theorem ood_ratio_full_denominator_witness :
    ("station_id", (⟨0, 1⟩ : FeatStats)) ∈ exStatsAbsent ∧
      "station_id" ∉ requestColumns ∧
      oodRatioOf exStatsAbsent (exReq 0)
        = some ((oodCount exStatsAbsent (exReq 0) : ℚ) / (exStatsAbsent.length : ℚ)) :=
  ⟨List.mem_singleton.mpr rfl, by decide,
    (ood_ratio_full_denominator (fun _ => 0) exStatsAbsent (exReq 0) "station_id" ⟨0, 1⟩
      (List.mem_singleton.mpr rfl) (by decide)).2.2.1⟩
